import Mathlib

/-!
Verification development for the supertrend-cloud trading bot.

Shallow embedding of the core of the repository:
  * app/models.py                    -- PositionState
  * app/exchange/order_manager.py    -- quantity sizing and order placement
  * app/strategy/state_machine.py    -- zone-transition state machine
  * app/trading/bot_controller.py    -- exchange reconciliation, force close,
                                        per-symbol candle dedup pipeline
  * app/indicators/supertrend_cloud.py -- SuperTrend band computation, zones

Python floats are modelled as rationals (exact arithmetic); the network
client is modelled as a pure oracle mapping each request to its outcome.
Effectful functions additionally return the list of exchange requests or
order-manager calls they performed, so that statements of the form
"no order is issued" can be expressed.
-/

/-- Zones relative to the cloud, as stored in `PositionState`
(`models.py`): OVER, UNDER, IN, plus the pre-initialization NONE. -/
inductive Zone where
  | OVER
  | UNDER
  | IN
  | NONE
deriving DecidableEq, Repr

/-- A zone observation handed to the state machine
(`Literal["OVER", "UNDER", "IN"]` in `state_machine.py`): never NONE. -/
inductive ZoneObs where
  | OVER
  | UNDER
  | IN
deriving DecidableEq, Repr

/-- Embed an observation into the stored zone type. -/
def ZoneObs.toZone : ZoneObs → Zone
  | .OVER => Zone.OVER
  | .UNDER => Zone.UNDER
  | .IN => Zone.IN

/-- Position side, `Literal["FLAT", "LONG", "SHORT"]` in `models.py`. -/
inductive PosState where
  | FLAT
  | LONG
  | SHORT
deriving DecidableEq, Repr

/-- Exchange order side ("Buy" / "Sell" strings in the source). -/
inductive Side where
  | Buy
  | Sell
deriving DecidableEq, Repr

/-- `PositionState` dataclass from `app/models.py`.
`last_update` (a wall-clock datetime) is not modelled. -/
structure PositionState where
  symbol : String
  pos_state : PosState := PosState.FLAT
  prev_zone : Zone := Zone.NONE
  current_zone : Zone := Zone.NONE
  qty : ℚ := 0
  entry_price : ℚ := 0
  unrealized_pnl : ℚ := 0
  last_signal : String := "N/A"
  last_candle_time : ℕ := 0
deriving DecidableEq, Repr

/-- The lot-size filter of an instrument
(`lotSizeFilter` fields used in `calculate_order_qty`). -/
structure InstrumentSpec where
  qtyStep : ℚ
  minOrderQty : ℚ
  maxOrderQty : ℚ
  minNotionalValue : ℚ
deriving DecidableEq, Repr

/-- A market-order request as sent by `BybitClient.place_market_order`. -/
structure OrderReq where
  symbol : String
  side : Side
  qty : ℚ
  reduce_only : Bool
deriving DecidableEq, Repr

/-- Pure oracle for the exchange client: `instrument` models
`get_instruments_info` (none = unavailable), `placeOrder` models
`place_market_order` (none = order rejected / failed, some = order id). -/
structure Client where
  instrument : String → Option InstrumentSpec
  placeOrder : OrderReq → Option ℕ

/-! ## Order manager (`app/exchange/order_manager.py`) -/

/-- Number of decimals of the quantity step, as derived in
`adjust_quantity` from the 10-decimal string rendering of the step with
trailing zeros stripped: the least `d ≤ 10` with `step * 10^d` integral,
and 10 when no such `d` exists. -/
def decimalsOf (step : ℚ) : ℕ :=
  (((List.range 11).find? (fun d => (step * (10 : ℚ) ^ d).den == 1))).getD 10

/-- `round(x, d)` of the source, on rationals: round `x` at `d` decimals.
(Python rounds ties to even; in this development the rounding is only ever
applied to exact multiples of `10 ^ (-d)`, where no tie can occur, so the
choice of tie-breaking is immaterial.) -/
def round_to (x : ℚ) (d : ℕ) : ℚ :=
  ((round (x * (10 : ℚ) ^ d) : ℤ) : ℚ) / (10 : ℚ) ^ d

/-- `OrderManager.adjust_quantity`: floor to the step size, round away
float noise at the step precision, then apply the min/max limits. -/
def adjust_quantity (qty qty_step min_qty max_qty : ℚ) : ℚ :=
  let qty1 :=
    if 0 < qty_step then
      round_to (((⌊qty / qty_step⌋ : ℤ) : ℚ) * qty_step) (decimalsOf qty_step)
    else qty
  max min_qty (min qty1 max_qty)

/-- `OrderManager.calculate_order_qty`: none when the instrument spec is
unavailable; otherwise size from the notional, adjust, and if the
resulting notional is below the minimum re-size from the minimum
notional and adjust again. -/
def calculate_order_qty (c : Client) (symbol : String)
    (notional_usdt current_price : ℚ) : Option ℚ :=
  match c.instrument symbol with
  | none => none
  | some info =>
    let qty := notional_usdt / current_price
    let qty := adjust_quantity qty info.qtyStep info.minOrderQty info.maxOrderQty
    let actual_notional := qty * current_price
    if actual_notional < info.minNotionalValue then
      some (adjust_quantity (info.minNotionalValue / current_price)
        info.qtyStep info.minOrderQty info.maxOrderQty)
    else
      some qty

/-- Result of an order-manager operation: the boolean outcome plus the
market-order requests that reached the exchange. -/
structure OMResult where
  ok : Bool
  reqs : List OrderReq
deriving DecidableEq, Repr

/-- `OrderManager.open_long`: size the order, then place a Buy market
order (not reduce-only); false when sizing fails or no order id returns. -/
def open_long (c : Client) (position_size_usdt : ℚ) (symbol : String)
    (price : ℚ) : OMResult :=
  match calculate_order_qty c symbol position_size_usdt price with
  | none => ⟨false, []⟩
  | some qty =>
    let req : OrderReq := ⟨symbol, Side.Buy, qty, false⟩
    ⟨(c.placeOrder req).isSome, [req]⟩

/-- `OrderManager.open_short`: size the order, then place a Sell market
order (not reduce-only); false when sizing fails or no order id returns. -/
def open_short (c : Client) (position_size_usdt : ℚ) (symbol : String)
    (price : ℚ) : OMResult :=
  match calculate_order_qty c symbol position_size_usdt price with
  | none => ⟨false, []⟩
  | some qty =>
    let req : OrderReq := ⟨symbol, Side.Sell, qty, false⟩
    ⟨(c.placeOrder req).isSome, [req]⟩

/-- `OrderManager.close_position`: fail fast on a non-positive quantity,
otherwise place a reduce-only market order opposing `side`. -/
def close_position (c : Client) (symbol : String) (current_qty : ℚ)
    (side : PosState) : OMResult :=
  if current_qty ≤ 0 then ⟨false, []⟩
  else
    let order_side := if side = PosState.LONG then Side.Sell else Side.Buy
    let req : OrderReq := ⟨symbol, order_side, current_qty, true⟩
    ⟨(c.placeOrder req).isSome, [req]⟩

/-- `OrderManager.reverse_position`: close the current position; abort
with false if the close fails, otherwise (after the settle delay, not
modelled) open the new side and report that result. -/
def reverse_position (c : Client) (position_size_usdt : ℚ) (symbol : String)
    (current_qty : ℚ) (current_side new_side : PosState) (price : ℚ) :
    OMResult :=
  let closeRes := close_position c symbol current_qty current_side
  if closeRes.ok then
    let openRes :=
      if new_side = PosState.LONG then open_long c position_size_usdt symbol price
      else open_short c position_size_usdt symbol price
    ⟨openRes.ok, closeRes.reqs ++ openRes.reqs⟩
  else
    ⟨false, closeRes.reqs⟩

/-! ## State machine (`app/strategy/state_machine.py`) -/

/-- An invocation of an order-manager operation by the state machine,
with its arguments: used to express that no order action was attempted. -/
inductive OMCall where
  | openLong (symbol : String) (price : ℚ)
  | openShort (symbol : String) (price : ℚ)
  | closePosition (symbol : String) (qty : ℚ) (side : PosState)
  | reversePosition (symbol : String) (qty : ℚ)
      (current_side new_side : PosState) (price : ℚ)
deriving DecidableEq, Repr

/-- Result of `StateMachine.process_signal`: the updated position state,
the returned `(success, signal)` pair, and the order-manager calls made. -/
structure SignalResult where
  state : PositionState
  success : Bool
  signal : String
  calls : List OMCall
deriving DecidableEq, Repr

/-- `StateMachine._calculate_expected_qty`. -/
def calculate_expected_qty (position_size_usdt price : ℚ) : ℚ :=
  if price ≤ 0 then 0 else position_size_usdt / price

/-- Body of `process_signal` between the two early returns
(initialization and holding) and the final zone-update block: the
transition branches, including the order-manager invocations and the
state mutations performed on success. -/
def process_core (c : Client) (psz : ℚ) (state : PositionState)
    (cz : Zone) (current_price : ℚ) (trading_enabled : Bool) : SignalResult :=
  let prev_zone := state.prev_zone
  let pos_state := state.pos_state
  let symbol := state.symbol
  if cz = Zone.OVER ∧ (prev_zone = Zone.UNDER ∨ prev_zone = Zone.IN) then
    let sig0 := if prev_zone = Zone.UNDER then "Crossover Cloud → "
                else "Exit Cloud Up → "
    if pos_state = PosState.FLAT then
      let signal := sig0 ++ "Open LONG"
      if trading_enabled then
        let res := open_long c psz symbol current_price
        if res.ok then
          ⟨{state with
              pos_state := PosState.LONG, entry_price := current_price,
              qty := calculate_expected_qty psz current_price},
            true, signal, [OMCall.openLong symbol current_price]⟩
        else
          ⟨state, false, signal ++ " (FAILED)",
            [OMCall.openLong symbol current_price]⟩
      else ⟨state, true, signal, []⟩
    else if pos_state = PosState.SHORT ∧ prev_zone = Zone.UNDER then
      let signal := sig0 ++ "Reverse SHORT → LONG"
      if trading_enabled then
        let qty_to_close := if state.qty > 0 then state.qty
                            else calculate_expected_qty psz current_price
        let res := reverse_position c psz symbol qty_to_close
          PosState.SHORT PosState.LONG current_price
        if res.ok then
          ⟨{state with
              pos_state := PosState.LONG, entry_price := current_price,
              qty := calculate_expected_qty psz current_price},
            true, signal,
            [OMCall.reversePosition symbol qty_to_close
              PosState.SHORT PosState.LONG current_price]⟩
        else
          ⟨state, false, signal ++ " (FAILED)",
            [OMCall.reversePosition symbol qty_to_close
              PosState.SHORT PosState.LONG current_price]⟩
      else ⟨state, true, signal, []⟩
    else ⟨state, true, sig0, []⟩
  else if cz = Zone.UNDER ∧ (prev_zone = Zone.OVER ∨ prev_zone = Zone.IN) then
    let sig0 := if prev_zone = Zone.OVER then "Crossunder Cloud → "
                else "Exit Cloud Down → "
    if pos_state = PosState.FLAT then
      let signal := sig0 ++ "Open SHORT"
      if trading_enabled then
        let res := open_short c psz symbol current_price
        if res.ok then
          ⟨{state with
              pos_state := PosState.SHORT, entry_price := current_price,
              qty := calculate_expected_qty psz current_price},
            true, signal, [OMCall.openShort symbol current_price]⟩
        else
          ⟨state, false, signal ++ " (FAILED)",
            [OMCall.openShort symbol current_price]⟩
      else ⟨state, true, signal, []⟩
    else if pos_state = PosState.LONG ∧ prev_zone = Zone.OVER then
      let signal := sig0 ++ "Reverse LONG → SHORT"
      if trading_enabled then
        let qty_to_close := if state.qty > 0 then state.qty
                            else calculate_expected_qty psz current_price
        let res := reverse_position c psz symbol qty_to_close
          PosState.LONG PosState.SHORT current_price
        if res.ok then
          ⟨{state with
              pos_state := PosState.SHORT, entry_price := current_price,
              qty := calculate_expected_qty psz current_price},
            true, signal,
            [OMCall.reversePosition symbol qty_to_close
              PosState.LONG PosState.SHORT current_price]⟩
        else
          ⟨state, false, signal ++ " (FAILED)",
            [OMCall.reversePosition symbol qty_to_close
              PosState.LONG PosState.SHORT current_price]⟩
      else ⟨state, true, signal, []⟩
    else ⟨state, true, sig0, []⟩
  else if cz = Zone.IN ∧ (prev_zone = Zone.OVER ∨ prev_zone = Zone.UNDER) then
    if pos_state = PosState.LONG ∨ pos_state = PosState.SHORT then
      let signal := "Enter Cloud → Close " ++
        (if pos_state = PosState.LONG then "LONG" else "SHORT")
      if trading_enabled then
        let qty_to_close := if state.qty > 0 then state.qty
                            else calculate_expected_qty psz current_price
        if qty_to_close > 0 then
          let res := close_position c symbol qty_to_close pos_state
          if res.ok then
            ⟨{state with pos_state := PosState.FLAT, entry_price := 0, qty := 0},
              true, signal, [OMCall.closePosition symbol qty_to_close pos_state]⟩
          else
            ⟨state, false, signal ++ " (FAILED)",
              [OMCall.closePosition symbol qty_to_close pos_state]⟩
        else ⟨state, false, signal ++ " (NO QTY)", []⟩
      else ⟨state, true, signal, []⟩
    else ⟨state, true, "Enter Cloud (already FLAT)", []⟩
  else ⟨state, true, "No signal", []⟩

/-- `StateMachine.process_signal`: early return on first observation
(`prev_zone = NONE`) and on an unchanged zone; otherwise run the
transition branches and then the final zone-update block, which advances
`prev_zone` exactly when `success` is true. -/
def process_signal (c : Client) (psz : ℚ) (state : PositionState)
    (current_zone : ZoneObs) (current_price : ℚ) (trading_enabled : Bool) :
    SignalResult :=
  let cz := current_zone.toZone
  if state.prev_zone = Zone.NONE then
    ⟨{state with current_zone := cz, prev_zone := cz}, true, "Initializing", []⟩
  else if state.prev_zone = cz then
    ⟨{state with current_zone := cz, last_signal := "Holding"}, true, "Holding", []⟩
  else
    let r := process_core c psz state cz current_price trading_enabled
    if r.success then
      ⟨{r.state with current_zone := cz, prev_zone := cz, last_signal := r.signal},
        true, r.signal, r.calls⟩
    else
      ⟨{r.state with current_zone := cz, last_signal := r.signal},
        false, r.signal, r.calls⟩

/-! ## Bot controller (`app/trading/bot_controller.py`) -/

/-- One entry of the position list returned by `get_positions`
(fields used by `update_position_from_exchange`). -/
structure ExchPos where
  size : ℚ
  side : String
  avgPrice : ℚ
  unrealisedPnl : ℚ
deriving DecidableEq, Repr

/-- `BotController.update_position_from_exchange`: the fetch either
raises (`Except.error`, caught: return false, state untouched) or yields
the position list. Size > 0 copies the exchange values; size ≤ 0 resets
to FLAT; an empty list resets to FLAT only when the local state was not
already FLAT. -/
def update_position_from_exchange (fetch : Except Unit (List ExchPos))
    (state : PositionState) : Bool × PositionState :=
  match fetch with
  | .error _ => (false, state)
  | .ok positions =>
    match positions with
    | pos :: _ =>
      if pos.size > 0 then
        let new_state := if pos.side = "Buy" then PosState.LONG else PosState.SHORT
        (true, {state with
          qty := pos.size, pos_state := new_state,
          entry_price := pos.avgPrice, unrealized_pnl := pos.unrealisedPnl})
      else
        (true, {state with
          pos_state := PosState.FLAT, qty := 0,
          entry_price := 0, unrealized_pnl := 0})
    | [] =>
      if state.pos_state ≠ PosState.FLAT then
        (true, {state with
          pos_state := PosState.FLAT, qty := 0,
          entry_price := 0, unrealized_pnl := 0})
      else (true, state)

/-- Per-symbol body of `BotController.force_close_all`: resync from the
exchange, then close any non-FLAT position with positive quantity,
zeroing the local state only when the close succeeded. -/
def force_close_symbol (c : Client) (fetch : Except Unit (List ExchPos))
    (state : PositionState) : PositionState :=
  let s1 := (update_position_from_exchange fetch state).2
  if s1.pos_state ≠ PosState.FLAT ∧ s1.qty > 0 then
    if (close_position c s1.symbol s1.qty s1.pos_state).ok then
      {s1 with
        pos_state := PosState.FLAT, qty := 0,
        entry_price := 0, unrealized_pnl := 0}
    else s1
  else s1

/-- Environment of one `BotController.process_symbol` run for a fixed
symbol: number of fetched candles, open time of the latest candle, and
whether an exception is raised after the dedup timestamp was recorded
(either before the state machine call, or inside the state machine /
order execution). -/
structure CycleEnv where
  nCandles : ℕ
  latestTime : ℕ
  raisesBeforeSm : Bool
  smRaises : Bool
deriving DecidableEq, Repr

/-- Control skeleton of `BotController.process_symbol`: returns the new
`last_candle_times` entry for the symbol and whether the state machine
was invoked. Empty or insufficient candles skip the symbol; an
unchanged latest open time skips the symbol; otherwise the open time is
recorded BEFORE the indicator / sync / state-machine steps, and any
exception raised in those later steps is caught by the outer handler,
leaving the recorded time in place. -/
def process_symbol (lastTime : Option ℕ) (env : CycleEnv) : Option ℕ × Bool :=
  if env.nCandles = 0 then (lastTime, false)
  else if env.nCandles < 50 then (lastTime, false)
  else if lastTime = some env.latestTime then (lastTime, false)
  else
    let recorded := some env.latestTime
    if env.raisesBeforeSm then (recorded, false)
    else if env.smRaises then (recorded, true)
    else (recorded, true)

/-! ## Indicator (`app/indicators/supertrend_cloud.py`) -/

namespace STC

/-- A candle; the indicator reads only high, low and close. -/
structure Candle where
  high : ℚ
  low : ℚ
  close : ℚ
deriving DecidableEq, Repr

/-- Candle access; out-of-range indices yield the zero candle. -/
def candleAt (cs : List Candle) (i : ℕ) : Candle := cs.getD i ⟨0, 0, 0⟩

/-- `hl2 = (high + low) / 2`. -/
def hl2 (cs : List Candle) (i : ℕ) : ℚ :=
  ((candleAt cs i).high + (candleAt cs i).low) / 2

/-- True range: at index 0 the previous close is missing (NaN in the
source), so the rowwise max reduces to `high - low`. -/
def trueRange (cs : List Candle) : ℕ → ℚ
  | 0 => (candleAt cs 0).high - (candleAt cs 0).low
  | i + 1 =>
    max ((candleAt cs (i + 1)).high - (candleAt cs (i + 1)).low)
      (max |(candleAt cs (i + 1)).high - (candleAt cs i).close|
        |(candleAt cs (i + 1)).low - (candleAt cs i).close|)

/-- Wilder smoothing of the true range:
`tr.ewm(alpha = 1/period, adjust = False).mean()`. -/
def atr (cs : List Candle) (period : ℚ) : ℕ → ℚ
  | 0 => trueRange cs 0
  | i + 1 => atr cs period i + (trueRange cs (i + 1) - atr cs period i) / period

/-- `basic_upper = hl2 + multiplier * atr`. -/
def basic_upper (cs : List Candle) (period mult : ℚ) (i : ℕ) : ℚ :=
  hl2 cs i + mult * atr cs period i

/-- `basic_lower = hl2 - multiplier * atr`. -/
def basic_lower (cs : List Candle) (period mult : ℚ) (i : ℕ) : ℚ :=
  hl2 cs i - mult * atr cs period i

/-- Upper band ratchet of `calculate_supertrend`. Over exact rationals
the basic bands are never NaN, so `first_valid_idx = 0` and the NaN
carry-forward branch of the source loop never fires. -/
def upper_band (cs : List Candle) (period mult : ℚ) : ℕ → ℚ
  | 0 => basic_upper cs period mult 0
  | i + 1 =>
    if basic_upper cs period mult (i + 1) < upper_band cs period mult i ∨
        (candleAt cs i).close > upper_band cs period mult i then
      basic_upper cs period mult (i + 1)
    else upper_band cs period mult i

/-- Lower band ratchet of `calculate_supertrend` (opposite comparisons). -/
def lower_band (cs : List Candle) (period mult : ℚ) : ℕ → ℚ
  | 0 => basic_lower cs period mult 0
  | i + 1 =>
    if basic_lower cs period mult (i + 1) > lower_band cs period mult i ∨
        (candleAt cs i).close < lower_band cs period mult i then
      basic_lower cs period mult (i + 1)
    else lower_band cs period mult i

/-- Trend direction: 1 = uptrend, -1 = downtrend, starting at 1. -/
def direction (cs : List Candle) (period mult : ℚ) : ℕ → ℤ
  | 0 => 1
  | i + 1 =>
    if direction cs period mult i = -1 then
      if (candleAt cs (i + 1)).close > upper_band cs period mult i then 1 else -1
    else
      if (candleAt cs (i + 1)).close < lower_band cs period mult i then -1 else 1

/-- SuperTrend value: the lower band in an uptrend, else the upper band. -/
def supertrend (cs : List Candle) (period mult : ℚ) (i : ℕ) : ℚ :=
  if direction cs period mult i = 1 then lower_band cs period mult i
  else upper_band cs period mult i

/-- Upper cloud of `calculate_supertrend_cloud`: max of the two trends. -/
def upper_cloud (cs : List Candle) (p1 m1 p2 m2 : ℚ) (i : ℕ) : ℚ :=
  max (supertrend cs p1 m1 i) (supertrend cs p2 m2 i)

/-- Lower cloud of `calculate_supertrend_cloud`: min of the two trends. -/
def lower_cloud (cs : List Candle) (p1 m1 p2 m2 : ℚ) (i : ℕ) : ℚ :=
  min (supertrend cs p1 m1 i) (supertrend cs p2 m2 i)

end STC

/-- `get_zone` from `supertrend_cloud.py`: OVER above the upper cloud,
UNDER below the lower cloud, IN otherwise (boundaries inclusive to IN). -/
def get_zone (close upper_cloud lower_cloud : ℚ) : ZoneObs :=
  if close > upper_cloud then ZoneObs.OVER
  else if close < lower_cloud then ZoneObs.UNDER
  else ZoneObs.IN

/-! ## Specification-level definitions and concrete fixtures -/

/-- `sizeOrder` as worded in the specification (section 4.3), for
comparison with `calculate_order_qty`: divide the notional target by the
price, floor to `qtyStep` precision, clamp to `[minQty, maxQty]`, and if
the resulting notional is below `minNotional` recompute from
`minNotional / price`, flooring and clamping again. -/
def sizeOrder_spec (info : InstrumentSpec) (notionalTarget price : ℚ) : ℚ :=
  let floorStep (q : ℚ) : ℚ := ((⌊q / info.qtyStep⌋ : ℤ) : ℚ) * info.qtyStep
  let clamp (q : ℚ) : ℚ := max info.minOrderQty (min q info.maxOrderQty)
  let qty := clamp (floorStep (notionalTarget / price))
  if qty * price < info.minNotionalValue then
    clamp (floorStep (info.minNotionalValue / price))
  else qty

/-- The instrument spec of the quantity-adjustment example:
qtyStep 0.001, minQty 0.001, maxQty 1000, minNotional 5. -/
def btcSpec : InstrumentSpec := ⟨1/1000, 1/1000, 1000, 5⟩

/-- A client for which every request succeeds. -/
def okClient : Client := ⟨fun _ => some btcSpec, fun _ => some 1⟩

/-- A client whose instrument data is available but which rejects every
market order. -/
def failClient : Client := ⟨fun _ => some btcSpec, fun _ => none⟩

/-- A client that accepts reduce-only (closing) orders and rejects
opening orders. -/
def closeOnlyClient : Client :=
  ⟨fun _ => some btcSpec, fun r => if r.reduce_only then some 1 else none⟩

/-- A flat position whose previous zone is UNDER. -/
def flatUnder : PositionState :=
  { symbol := "BTCUSDT", pos_state := PosState.FLAT, prev_zone := Zone.UNDER,
    current_zone := Zone.UNDER }

/-- A short position whose previous zone is IN (inside the cloud). -/
def shortIn : PositionState :=
  { symbol := "BTCUSDT", pos_state := PosState.SHORT, prev_zone := Zone.IN,
    current_zone := Zone.IN, qty := 2, entry_price := 50000 }

/-- A long position whose previous zone is IN (inside the cloud). -/
def longIn : PositionState :=
  { symbol := "BTCUSDT", pos_state := PosState.LONG, prev_zone := Zone.IN,
    current_zone := Zone.IN, qty := 2, entry_price := 50000 }

/-- A short position whose previous zone is UNDER. -/
def shortUnder : PositionState :=
  { symbol := "BTCUSDT", pos_state := PosState.SHORT, prev_zone := Zone.UNDER,
    current_zone := Zone.UNDER, qty := 2, entry_price := 50000 }

/-- A long position whose previous zone is OVER. -/
def longOver : PositionState :=
  { symbol := "BTCUSDT", pos_state := PosState.LONG, prev_zone := Zone.OVER,
    current_zone := Zone.OVER, qty := 2, entry_price := 50000 }

/-- A position state that is FLAT but carries stale nonzero qty and
entry price fields. -/
def flatStale : PositionState :=
  { symbol := "BTCUSDT", pos_state := PosState.FLAT, prev_zone := Zone.IN,
    current_zone := Zone.IN, qty := 5, entry_price := 3 }

/-- A client with no instrument data at all: every sizing, and hence
every opening order, fails without touching the exchange. -/
def noInstClient : Client := ⟨fun _ => none, fun _ => none⟩

/-- A client with no instrument data whose order endpoint accepts
reduce-only orders: closes succeed, opens fail. -/
def closeableClient : Client :=
  ⟨fun _ => none, fun r => if r.reduce_only then some 1 else none⟩

/-- Two identical candles used to exercise the band ratchet. -/
def wCandles : List STC.Candle := [⟨2, 0, 1⟩, ⟨2, 0, 1⟩]

/-- The FLAT invariant of the position record: a FLAT position carries
zero quantity and zero entry price. -/
def position_invariant (s : PositionState) : Prop :=
  s.pos_state = PosState.FLAT → s.qty = 0 ∧ s.entry_price = 0

instance (s : PositionState) : Decidable (position_invariant s) := by
  unfold position_invariant
  infer_instance

/-- The lazily created default `PositionState(symbol=symbol)` of
`TradingState.get_position`. -/
def default_position (symbol : String) : PositionState := { symbol := symbol }

/-! ## Helper lemmas -/

/-- Rounding at `d` decimals is the identity on integer multiples of a
step whose product with `10 ^ d` is integral. -/
lemma round_to_int_mul (k : ℤ) (step : ℚ) (d : ℕ)
    (h : (step * (10 : ℚ) ^ d).den = 1) :
    round_to ((k : ℚ) * step) d = (k : ℚ) * step := by
  have h10 : ((10 : ℚ) ^ d) ≠ 0 := by positivity
  have hm : ((step * (10 : ℚ) ^ d).num : ℚ) = step * (10 : ℚ) ^ d :=
    (Rat.den_eq_one_iff _).mp h
  have hx : (k : ℚ) * step * (10 : ℚ) ^ d
      = ((k * (step * (10 : ℚ) ^ d).num : ℤ) : ℚ) := by
    push_cast [hm]; ring
  unfold round_to
  rw [hx, round_intCast]
  push_cast [hm]
  field_simp
  ring

/-- Under the same integrality condition, `adjust_quantity` is floor to
the step followed by the min/max limits. -/
lemma adjust_quantity_eq (q step mn mx : ℚ) (hs : 0 < step)
    (h : (step * (10 : ℚ) ^ decimalsOf step).den = 1) :
    adjust_quantity q step mn mx
      = max mn (min (((⌊q / step⌋ : ℤ) : ℚ) * step) mx) := by
  unfold adjust_quantity
  simp only [if_pos hs, round_to_int_mul _ _ _ h]

/-- The denominator of `1/1000 * 10 ^ d` is 1 exactly when `1000`
divides `10 ^ d`. -/
lemma den_step (d : ℕ) :
    (((1 : ℚ)/1000 * (10 : ℚ) ^ d).den = 1) ↔ (1000 : ℤ) ∣ 10 ^ d := by
  have h : ((1 : ℚ)/1000 * (10 : ℚ) ^ d)
      = (((10 : ℤ) ^ d : ℤ) : ℚ) / (((1000 : ℤ) : ℤ) : ℚ) := by
    push_cast; ring
  rw [h, Rat.den_div_intCast_eq_one_iff _ _ (by norm_num)]

/-- The decimal precision derived for the step `0.001` is 3. -/
lemma decimalsOf_thousandth : decimalsOf (1/1000) = 3 := by
  have hne : ∀ d : ℕ, ¬(1000 : ℤ) ∣ 10 ^ d →
      ((((1 : ℚ)/1000 * (10 : ℚ) ^ d).den) == 1) = false := by
    intro d hd
    rw [beq_eq_false_iff_ne, Ne, den_step]
    exact hd
  have h0 := hne 0 (by decide)
  have h1 := hne 1 (by decide)
  have h2 := hne 2 (by decide)
  have h3 : ((((1 : ℚ)/1000 * (10 : ℚ) ^ (3 : ℕ)).den) == 1) = true := by
    rw [beq_iff_eq, den_step]
    decide
  unfold decimalsOf
  rw [show List.range 11 = [0, 1, 2, 3, 4, 5, 6, 7, 8, 9, 10] from rfl]
  simp only [List.find?, h0, h1, h2, h3, Option.getD_some]

/-- The integrality condition of `adjust_quantity_eq`, at step `0.001`. -/
lemma den_btcStep : (btcSpec.qtyStep * (10 : ℚ) ^ decimalsOf btcSpec.qtyStep).den = 1 := by
  show (((1 : ℚ)/1000) * (10 : ℚ) ^ decimalsOf ((1 : ℚ)/1000)).den = 1
  rw [decimalsOf_thousandth]
  exact (den_step 3).mpr (by decide)

/-! ## Claim theorems -/

/-- Claim C5: order sizing returns none exactly when the instrument spec
is unavailable; with an available spec (positive step whose decimal
precision is exactly representable) it computes notional/price, floors
to a multiple of the step, clamps to the min/max quantities, and when
the resulting notional falls below the minimum notional it recomputes
from minNotional/price, flooring and clamping again, as
`sizeOrder_spec` words it; on the documented example (step 0.001,
minQty 0.001, maxQty 1000, minNotional 5, notional 100, price 60000)
the result is exactly 0.001. -/
theorem order_sizing_correct :
    (∀ (c : Client) (sym : String) (n p : ℚ),
      calculate_order_qty c sym n p = none ↔ c.instrument sym = none) ∧
    (∀ (c : Client) (sym : String) (info : InstrumentSpec) (n p : ℚ),
      c.instrument sym = some info → 0 < n → 0 < p → 0 < info.qtyStep →
      (info.qtyStep * (10 : ℚ) ^ decimalsOf info.qtyStep).den = 1 →
      calculate_order_qty c sym n p = some (sizeOrder_spec info n p)) ∧
    calculate_order_qty okClient "BTCUSDT" 100 60000 = some (1/1000) := by
  have key : ∀ (c : Client) (sym : String) (info : InstrumentSpec) (n p : ℚ),
      c.instrument sym = some info → 0 < info.qtyStep →
      (info.qtyStep * (10 : ℚ) ^ decimalsOf info.qtyStep).den = 1 →
      calculate_order_qty c sym n p = some (sizeOrder_spec info n p) := by
    intro c sym info n p hinfo hs hd
    unfold calculate_order_qty sizeOrder_spec
    rw [hinfo]
    simp only [adjust_quantity_eq _ _ _ _ hs hd]
    split_ifs <;> rfl
  refine ⟨?_, ?_, ?_⟩
  · intro c sym n p
    unfold calculate_order_qty
    cases h : c.instrument sym
    · simp [h]
    · simp only [h]
      split_ifs <;> simp
  · intro c sym info n p hinfo _ _ hs hd
    exact key c sym info n p hinfo hs hd
  · rw [key okClient "BTCUSDT" btcSpec 100 60000 rfl (by norm_num [btcSpec]) den_btcStep]
    have h1 : (100 : ℚ)/60000/btcSpec.qtyStep = 5/3 := by norm_num [btcSpec]
    have h2 : (⌊(5/3 : ℚ)⌋) = 1 := by norm_num [Int.floor_eq_iff]
    simp only [sizeOrder_spec]
    rw [h1, h2]
    rw [if_neg (by norm_num [btcSpec, min_def, max_def])]
    norm_num [btcSpec, min_def, max_def]

/-- Claim C6: in `reverse_position` a failed close aborts with false
before any opening (non-reduce-only) order is placed; after a successful
close the overall result is exactly the result of the open step (so a
failed open after a successful close yields false); and `close_position`
returns false immediately, placing no order, when the quantity is not
positive. -/
theorem reverse_close_first :
    (∀ (c : Client) (psz : ℚ) (sym : String) (q : ℚ) (fs ts : PosState)
        (price : ℚ),
      (close_position c sym q fs).ok = false →
      (reverse_position c psz sym q fs ts price).ok = false ∧
      ∀ r ∈ (reverse_position c psz sym q fs ts price).reqs,
        r.reduce_only = true) ∧
    (∀ (c : Client) (psz : ℚ) (sym : String) (q : ℚ) (fs ts : PosState)
        (price : ℚ),
      (close_position c sym q fs).ok = true →
      (reverse_position c psz sym q fs ts price).ok =
        (if ts = PosState.LONG then open_long c psz sym price
         else open_short c psz sym price).ok) ∧
    (∀ (c : Client) (sym : String) (q : ℚ) (fs : PosState),
      q ≤ 0 → close_position c sym q fs = ⟨false, []⟩) := by
  refine ⟨?_, ?_, ?_⟩
  · intro c psz sym q fs ts price hfail
    have h1 : reverse_position c psz sym q fs ts price
        = ⟨false, (close_position c sym q fs).reqs⟩ := by
      unfold reverse_position
      simp [hfail]
    rw [h1]
    refine ⟨rfl, ?_⟩
    intro r hr
    by_cases hq : q ≤ 0
    · simp [close_position, hq] at hr
    · simp only [close_position, if_neg hq] at hr
      simp only [List.mem_singleton] at hr
      rw [hr]
  · intro c psz sym q fs ts price hok
    unfold reverse_position
    simp [hok]
  · intro c sym q fs hq
    unfold close_position
    simp [hq]

/-- Claim C9 counterexample: with upper cloud 0 and lower cloud 5 the
close 3 is below the lower cloud yet the classification is OVER, not
UNDER, refuting the unrestricted "UNDER if and only if close < lower". -/
theorem zone_under_iff_cex :
    ((3 : ℚ) < 5) ∧ get_zone 3 0 5 ≠ ZoneObs.UNDER := by decide

/-- Claim C9 (amended): every computed cloud has its lower boundary at
or below its upper boundary, and provided lower ≤ upper the
classification is OVER iff close > upper, UNDER iff close < lower, IN
iff lower ≤ close ≤ upper; a close equal to either boundary is IN. -/
theorem zone_classification :
    (∀ (cs : List STC.Candle) (p1 m1 p2 m2 : ℚ) (i : ℕ),
      STC.lower_cloud cs p1 m1 p2 m2 i ≤ STC.upper_cloud cs p1 m1 p2 m2 i) ∧
    (∀ close upper lower : ℚ, lower ≤ upper →
      (get_zone close upper lower = ZoneObs.OVER ↔ close > upper) ∧
      (get_zone close upper lower = ZoneObs.UNDER ↔ close < lower) ∧
      (get_zone close upper lower = ZoneObs.IN ↔
        lower ≤ close ∧ close ≤ upper) ∧
      (close = upper → get_zone close upper lower = ZoneObs.IN) ∧
      (close = lower → get_zone close upper lower = ZoneObs.IN)) := by
  constructor
  · intro cs p1 m1 p2 m2 i
    exact min_le_max
  · intro close upper lower h
    unfold get_zone
    split_ifs with h1 h2 <;>
      refine ⟨?_, ?_, ?_, ?_, ?_⟩ <;> simp_all <;> linarith

/-- Claim C10: the per-symbol pipeline records the latest candle open
time before invoking the state machine, so whenever the state machine is
invoked the recorded time equals that candle time — even when a later
step raises and is caught — and a subsequent run that sees the same
latest candle time skips the state machine instead of retrying it. -/
theorem candle_dedup_records_before_invoke :
    (∀ (lt : Option ℕ) (env : CycleEnv),
      (process_symbol lt env).2 = true →
      (process_symbol lt env).1 = some env.latestTime) ∧
    (∀ (lt : Option ℕ) (env env2 : CycleEnv),
      (process_symbol lt env).2 = true →
      env2.latestTime = env.latestTime →
      (process_symbol (process_symbol lt env).1 env2).2 = false) := by
  have hrec : ∀ (lt : Option ℕ) (env : CycleEnv),
      (process_symbol lt env).2 = true →
      (process_symbol lt env).1 = some env.latestTime := by
    intro lt env h
    unfold process_symbol at h ⊢
    split_ifs at h ⊢ <;> simp_all
  refine ⟨hrec, ?_⟩
  intro lt env env2 h1 h2
  rw [hrec lt env h1, ← h2]
  unfold process_symbol
  split_ifs <;> simp_all


/-- On a failed order action the transition branches leave the position
state record untouched. -/
lemma process_core_fail (c : Client) (psz : ℚ) (s : PositionState) (cz : Zone)
    (p : ℚ) (te : Bool) :
    (process_core c psz s cz p te).success = false →
    (process_core c psz s cz p te).state = s := by
  simp only [process_core]
  generalize calculate_expected_qty psz p = ce
  generalize open_long c psz s.symbol p = rOL
  generalize open_short c psz s.symbol p = rOS
  generalize (if s.qty > 0 then s.qty else ce) = qc
  generalize reverse_position c psz s.symbol qc PosState.SHORT PosState.LONG p = rSL
  generalize reverse_position c psz s.symbol qc PosState.LONG PosState.SHORT p = rLS
  generalize close_position c s.symbol qc s.pos_state = rCL
  split_ifs <;> simp_all

/-- With trading disabled the transition branches issue no order call,
report success, and leave the position state record untouched. -/
lemma process_core_disabled (c : Client) (psz : ℚ) (s : PositionState)
    (cz : Zone) (p : ℚ) :
    (process_core c psz s cz p false).state = s ∧
    (process_core c psz s cz p false).success = true ∧
    (process_core c psz s cz p false).calls = [] := by
  simp only [process_core]
  generalize calculate_expected_qty psz p = ce
  generalize open_long c psz s.symbol p = rOL
  generalize open_short c psz s.symbol p = rOS
  generalize (if s.qty > 0 then s.qty else ce) = qc
  generalize reverse_position c psz s.symbol qc PosState.SHORT PosState.LONG p = rSL
  generalize reverse_position c psz s.symbol qc PosState.LONG PosState.SHORT p = rLS
  generalize close_position c s.symbol qc s.pos_state = rCL
  split_ifs <;> simp_all

/-- The transition branches preserve the FLAT invariant. -/
lemma process_core_invariant (c : Client) (psz : ℚ) (s : PositionState)
    (cz : Zone) (p : ℚ) (te : Bool)
    (h : s.pos_state = PosState.FLAT → s.qty = 0 ∧ s.entry_price = 0) :
    (process_core c psz s cz p te).state.pos_state = PosState.FLAT →
    (process_core c psz s cz p te).state.qty = 0 ∧
    (process_core c psz s cz p te).state.entry_price = 0 := by
  simp only [process_core]
  generalize calculate_expected_qty psz p = ce
  generalize open_long c psz s.symbol p = rOL
  generalize open_short c psz s.symbol p = rOS
  generalize (if s.qty > 0 then s.qty else ce) = qc
  generalize reverse_position c psz s.symbol qc PosState.SHORT PosState.LONG p = rSL
  generalize reverse_position c psz s.symbol qc PosState.LONG PosState.SHORT p = rLS
  generalize close_position c s.symbol qc s.pos_state = rCL
  split_ifs <;> simp_all

/-- A reverse call is only ever attempted from a SHORT position whose
previous zone was UNDER (reversing to LONG), or from a LONG position
whose previous zone was OVER (reversing to SHORT). -/
lemma process_core_reverse_only (c : Client) (psz : ℚ) (s : PositionState)
    (cz : Zone) (p : ℚ) (te : Bool) (sym : String) (q : ℚ) (fs ts : PosState)
    (pr : ℚ) :
    OMCall.reversePosition sym q fs ts pr ∈ (process_core c psz s cz p te).calls →
    (fs = PosState.SHORT ∧ ts = PosState.LONG ∧
      s.pos_state = PosState.SHORT ∧ s.prev_zone = Zone.UNDER) ∨
    (fs = PosState.LONG ∧ ts = PosState.SHORT ∧
      s.pos_state = PosState.LONG ∧ s.prev_zone = Zone.OVER) := by
  simp only [process_core]
  generalize calculate_expected_qty psz p = ce
  generalize open_long c psz s.symbol p = rOL
  generalize open_short c psz s.symbol p = rOS
  generalize (if s.qty > 0 then s.qty else ce) = qc
  generalize reverse_position c psz s.symbol qc PosState.SHORT PosState.LONG p = rSL
  generalize reverse_position c psz s.symbol qc PosState.LONG PosState.SHORT p = rLS
  generalize close_position c s.symbol qc s.pos_state = rCL
  split_ifs <;> simp_all


/-- `update_position_from_exchange` preserves the FLAT invariant. -/
lemma update_position_invariant (fetch : Except Unit (List ExchPos))
    (s : PositionState) (h : position_invariant s) :
    position_invariant (update_position_from_exchange fetch s).2 := by
  unfold position_invariant at *
  rcases fetch with e | ps
  · simp only [update_position_from_exchange]
    exact h
  · rcases ps with _ | ⟨pos, rest⟩
    · simp only [update_position_from_exchange]
      by_cases hf : s.pos_state ≠ PosState.FLAT
      · rw [if_pos hf]
        simp
      · rw [if_neg hf]
        exact h
    · simp only [update_position_from_exchange]
      by_cases hsz : pos.size > 0
      · rw [if_pos hsz]
        intro hps
        by_cases hb : pos.side = "Buy" <;> simp [hb] at hps
      · rw [if_neg hsz]
        simp

/-- Claim C1: whenever `process_signal` reports failure (a failed order
action), the position fields `pos_state`, `entry_price`, `qty` and the
zone `prev_zone` are exactly those of the input state — `prev_zone` is
not advanced — while `current_zone` is refreshed to the observed zone
and `last_signal` to the returned signal text. -/
theorem process_signal_failure_frame :
    ∀ (c : Client) (psz : ℚ) (s : PositionState) (cz : ZoneObs) (price : ℚ)
      (te : Bool),
    (process_signal c psz s cz price te).success = false →
    (process_signal c psz s cz price te).state.pos_state = s.pos_state ∧
    (process_signal c psz s cz price te).state.entry_price = s.entry_price ∧
    (process_signal c psz s cz price te).state.qty = s.qty ∧
    (process_signal c psz s cz price te).state.prev_zone = s.prev_zone ∧
    (process_signal c psz s cz price te).state.unrealized_pnl = s.unrealized_pnl ∧
    (process_signal c psz s cz price te).state.current_zone = cz.toZone ∧
    (process_signal c psz s cz price te).state.last_signal =
      (process_signal c psz s cz price te).signal := by
  intro c psz s cz price te h
  simp only [process_signal] at h ⊢
  by_cases h1 : s.prev_zone = Zone.NONE
  · rw [if_pos h1] at h
    simp at h
  · rw [if_neg h1] at h ⊢
    by_cases h2 : s.prev_zone = cz.toZone
    · rw [if_pos h2] at h
      simp at h
    · rw [if_neg h2] at h ⊢
      by_cases h3 : (process_core c psz s cz.toZone price te).success = true
      · rw [if_pos h3] at h
        simp at h
      · rw [if_neg h3] at h ⊢
        have hfail : (process_core c psz s cz.toZone price te).success = false := by
          simpa using h3
        have hst := process_core_fail c psz s cz.toZone price te hfail
        simp [hst]

/-- Claim C2 (amended): with trading disabled no order-manager call is
made (so no order reaches the exchange) and `pos_state`, `entry_price`,
`qty`, `unrealized_pnl` are unchanged; however the zone tracking is
still advanced — both `prev_zone` and `current_zone` end at the
observed zone — because the decision is treated as a success. -/
theorem trading_disabled_no_order :
    ∀ (c : Client) (psz : ℚ) (s : PositionState) (cz : ZoneObs) (price : ℚ),
    (process_signal c psz s cz price false).calls = [] ∧
    (process_signal c psz s cz price false).success = true ∧
    (process_signal c psz s cz price false).state.pos_state = s.pos_state ∧
    (process_signal c psz s cz price false).state.entry_price = s.entry_price ∧
    (process_signal c psz s cz price false).state.qty = s.qty ∧
    (process_signal c psz s cz price false).state.unrealized_pnl =
      s.unrealized_pnl ∧
    (process_signal c psz s cz price false).state.prev_zone = cz.toZone ∧
    (process_signal c psz s cz price false).state.current_zone = cz.toZone := by
  intro c psz s cz price
  simp only [process_signal]
  by_cases h1 : s.prev_zone = Zone.NONE
  · rw [if_pos h1]
    simp
  · rw [if_neg h1]
    by_cases h2 : s.prev_zone = cz.toZone
    · rw [if_pos h2]
      simp [h2]
    · rw [if_neg h2]
      obtain ⟨hs, hsu, hc⟩ := process_core_disabled c psz s cz.toZone price
      rw [if_pos hsu]
      simp [hs, hc]

/-- Claim C2 counterexample: from a FLAT position with previous zone
UNDER, observing OVER with trading disabled advances `prev_zone` to
OVER, contradicting the claim that `prev_zone` remains unchanged. -/
theorem trading_disabled_prev_zone_cex :
    flatUnder.prev_zone = Zone.UNDER ∧
    (process_signal okClient 100 flatUnder ZoneObs.OVER 50000 false).state.prev_zone
      = Zone.OVER := by
  decide

/-- Claim C4: the FLAT invariant (`posState = FLAT` implies `qty = 0`
and `entryPrice = 0`) holds for the default position state and is
preserved by the state machine (all success and failure branches), by
exchange reconciliation (all branches) and by the per-symbol force
close. -/
theorem flat_invariant_preserved :
    (∀ sym : String, position_invariant (default_position sym)) ∧
    (∀ (c : Client) (psz : ℚ) (s : PositionState) (cz : ZoneObs) (price : ℚ)
        (te : Bool), position_invariant s →
      position_invariant (process_signal c psz s cz price te).state) ∧
    (∀ (fetch : Except Unit (List ExchPos)) (s : PositionState),
      position_invariant s →
      position_invariant (update_position_from_exchange fetch s).2) ∧
    (∀ (c : Client) (fetch : Except Unit (List ExchPos)) (s : PositionState),
      position_invariant s →
      position_invariant (force_close_symbol c fetch s)) := by
  refine ⟨?_, ?_, update_position_invariant, ?_⟩
  · intro sym
    simp [position_invariant, default_position]
  · intro c psz s cz price te h
    unfold position_invariant at *
    simp only [process_signal]
    by_cases h1 : s.prev_zone = Zone.NONE
    · rw [if_pos h1]
      simpa using h
    · rw [if_neg h1]
      by_cases h2 : s.prev_zone = cz.toZone
      · rw [if_pos h2]
        simpa using h
      · rw [if_neg h2]
        have hinv := process_core_invariant c psz s cz.toZone price te h
        by_cases h3 : (process_core c psz s cz.toZone price te).success = true
        · rw [if_pos h3]
          simpa using hinv
        · rw [if_neg h3]
          simpa using hinv
  · intro c fetch s h
    have h1 := update_position_invariant fetch s h
    unfold position_invariant at *
    simp only [force_close_symbol]
    split_ifs <;> simp_all

/-- Claim C3: from a SHORT position with previous zone IN, observing
OVER attempts no order action at all, and symmetrically a LONG position
with previous zone IN observing UNDER attempts none; a reverse
SHORT-to-LONG call can only arise with `pos_state = SHORT` and
`prev_zone = UNDER`, and a reverse LONG-to-SHORT call only with
`pos_state = LONG` and `prev_zone = OVER`. -/
theorem no_reverse_from_cloud_exit :
    (∀ (c : Client) (psz : ℚ) (s : PositionState) (price : ℚ) (te : Bool),
      s.pos_state = PosState.SHORT → s.prev_zone = Zone.IN →
      (process_signal c psz s ZoneObs.OVER price te).calls = []) ∧
    (∀ (c : Client) (psz : ℚ) (s : PositionState) (price : ℚ) (te : Bool),
      s.pos_state = PosState.LONG → s.prev_zone = Zone.IN →
      (process_signal c psz s ZoneObs.UNDER price te).calls = []) ∧
    (∀ (c : Client) (psz : ℚ) (s : PositionState) (cz : ZoneObs) (price : ℚ)
        (te : Bool) (sym : String) (q pr : ℚ),
      OMCall.reversePosition sym q PosState.SHORT PosState.LONG pr
        ∈ (process_signal c psz s cz price te).calls →
      s.pos_state = PosState.SHORT ∧ s.prev_zone = Zone.UNDER) ∧
    (∀ (c : Client) (psz : ℚ) (s : PositionState) (cz : ZoneObs) (price : ℚ)
        (te : Bool) (sym : String) (q pr : ℚ),
      OMCall.reversePosition sym q PosState.LONG PosState.SHORT pr
        ∈ (process_signal c psz s cz price te).calls →
      s.pos_state = PosState.LONG ∧ s.prev_zone = Zone.OVER) := by
  have hlift : ∀ (c : Client) (psz : ℚ) (s : PositionState) (cz : ZoneObs)
      (price : ℚ) (te : Bool) (x : OMCall),
      x ∈ (process_signal c psz s cz price te).calls →
      x ∈ (process_core c psz s cz.toZone price te).calls := by
    intro c psz s cz price te x hx
    simp only [process_signal] at hx
    by_cases h1 : s.prev_zone = Zone.NONE
    · rw [if_pos h1] at hx
      simp at hx
    · rw [if_neg h1] at hx
      by_cases h2 : s.prev_zone = cz.toZone
      · rw [if_pos h2] at hx
        simp at hx
      · rw [if_neg h2] at hx
        by_cases h3 : (process_core c psz s cz.toZone price te).success = true
        · rw [if_pos h3] at hx
          exact hx
        · rw [if_neg h3] at hx
          exact hx
  refine ⟨?_, ?_, ?_, ?_⟩
  · intro c psz s price te hps hpz
    simp [process_signal, process_core, hps, hpz, ZoneObs.toZone]
  · intro c psz s price te hps hpz
    simp [process_signal, process_core, hps, hpz, ZoneObs.toZone]
  · intro c psz s cz price te sym q pr hmem
    rcases process_core_reverse_only c psz s cz.toZone price te sym q
        PosState.SHORT PosState.LONG pr
        (hlift c psz s cz price te _ hmem) with h | h
    · exact ⟨h.2.2.1, h.2.2.2⟩
    · exact absurd h.1 (by decide)
  · intro c psz s cz price te sym q pr hmem
    rcases process_core_reverse_only c psz s cz.toZone price te sym q
        PosState.LONG PosState.SHORT pr
        (hlift c psz s cz price te _ hmem) with h | h
    · exact absurd h.1 (by decide)
    · exact ⟨h.2.2.1, h.2.2.2⟩

/-- Claim C7 (amended): a reconciliation fetch failure returns false and
leaves the state untouched; exchange-reported size > 0 copies the
exchange values into the local state; size = 0 (with position data
present) resets to FLAT unconditionally — also when the local state was
already FLAT, zeroing any stale quantity, entry price and PnL; only the
no-data branch makes the reset conditional on the prior local state not
being FLAT. -/
theorem reconciliation_behavior :
    (∀ s : PositionState,
      update_position_from_exchange (.error ()) s = (false, s)) ∧
    (∀ (s : PositionState) (pos : ExchPos) (rest : List ExchPos),
      pos.size > 0 →
      update_position_from_exchange (.ok (pos :: rest)) s =
        (true, {s with
          qty := pos.size,
          pos_state := if pos.side = "Buy" then PosState.LONG else PosState.SHORT,
          entry_price := pos.avgPrice, unrealized_pnl := pos.unrealisedPnl})) ∧
    (∀ (s : PositionState) (pos : ExchPos) (rest : List ExchPos),
      pos.size ≤ 0 →
      update_position_from_exchange (.ok (pos :: rest)) s =
        (true, {s with
          pos_state := PosState.FLAT, qty := 0, entry_price := 0,
          unrealized_pnl := 0})) ∧
    (∀ s : PositionState, s.pos_state ≠ PosState.FLAT →
      update_position_from_exchange (.ok []) s =
        (true, {s with
          pos_state := PosState.FLAT, qty := 0, entry_price := 0,
          unrealized_pnl := 0})) ∧
    (∀ s : PositionState, s.pos_state = PosState.FLAT →
      update_position_from_exchange (.ok []) s = (true, s)) := by
  refine ⟨?_, ?_, ?_, ?_, ?_⟩
  · intro s
    rfl
  · intro s pos rest hsz
    simp only [update_position_from_exchange]
    rw [if_pos hsz]
  · intro s pos rest hsz
    simp only [update_position_from_exchange]
    rw [if_neg (not_lt.mpr hsz)]
  · intro s hs
    simp only [update_position_from_exchange]
    rw [if_pos hs]
  · intro s hs
    simp only [update_position_from_exchange]
    rw [if_neg (by simp [hs])]

/-- Claim C7 counterexample: a locally FLAT state with stale qty 5 is
still overwritten (qty reset to 0) when the exchange reports a position
entry with size 0, contradicting "reset only if the prior local
pos_state was not already FLAT". -/
theorem reconciliation_flat_reset_cex :
    flatStale.pos_state = PosState.FLAT ∧ flatStale.qty = 5 ∧
    (update_position_from_exchange (.ok [⟨0, "Sell", 0, 0⟩]) flatStale).2.qty
      = 0 := by
  refine ⟨rfl, rfl, ?_⟩
  simp [update_position_from_exchange, flatStale]

/-- Claim C8: the band ratchet of `calculate_supertrend`. At every
defined successor index, the upper band does not increase unless the
previous close broke above it (symmetrically the lower band does not
decrease unless the previous close broke below it); the upper band
equals the basic upper band exactly under the update-rule guard
`basicUpper < prevBand or prevClose > prevBand`, and otherwise carries
the previous band forward (symmetric guard for the lower band). -/
theorem band_ratchet :
    ∀ (cs : List STC.Candle) (period mult : ℚ) (i : ℕ), i + 1 < cs.length →
    ((STC.candleAt cs i).close ≤ STC.upper_band cs period mult i →
      STC.upper_band cs period mult (i + 1) ≤ STC.upper_band cs period mult i) ∧
    ((STC.candleAt cs i).close ≥ STC.lower_band cs period mult i →
      STC.lower_band cs period mult (i + 1) ≥ STC.lower_band cs period mult i) ∧
    ((STC.basic_upper cs period mult (i + 1) < STC.upper_band cs period mult i ∨
        (STC.candleAt cs i).close > STC.upper_band cs period mult i) →
      STC.upper_band cs period mult (i + 1) =
        STC.basic_upper cs period mult (i + 1)) ∧
    (¬(STC.basic_upper cs period mult (i + 1) < STC.upper_band cs period mult i ∨
        (STC.candleAt cs i).close > STC.upper_band cs period mult i) →
      STC.upper_band cs period mult (i + 1) = STC.upper_band cs period mult i) ∧
    ((STC.basic_lower cs period mult (i + 1) > STC.lower_band cs period mult i ∨
        (STC.candleAt cs i).close < STC.lower_band cs period mult i) →
      STC.lower_band cs period mult (i + 1) =
        STC.basic_lower cs period mult (i + 1)) ∧
    (¬(STC.basic_lower cs period mult (i + 1) > STC.lower_band cs period mult i ∨
        (STC.candleAt cs i).close < STC.lower_band cs period mult i) →
      STC.lower_band cs period mult (i + 1) = STC.lower_band cs period mult i) := by
  intro cs period mult i hlen
  refine ⟨?_, ?_, ?_, ?_, ?_, ?_⟩
  · intro hclose
    rw [show STC.upper_band cs period mult (i + 1) =
      (if STC.basic_upper cs period mult (i + 1) < STC.upper_band cs period mult i ∨
          (STC.candleAt cs i).close > STC.upper_band cs period mult i then
        STC.basic_upper cs period mult (i + 1)
      else STC.upper_band cs period mult i) from rfl]
    split_ifs with h
    · rcases h with h | h
      · linarith
      · linarith
    · linarith
  · intro hclose
    rw [show STC.lower_band cs period mult (i + 1) =
      (if STC.basic_lower cs period mult (i + 1) > STC.lower_band cs period mult i ∨
          (STC.candleAt cs i).close < STC.lower_band cs period mult i then
        STC.basic_lower cs period mult (i + 1)
      else STC.lower_band cs period mult i) from rfl]
    split_ifs with h
    · rcases h with h | h
      · linarith
      · linarith
    · linarith
  · intro h
    rw [show STC.upper_band cs period mult (i + 1) =
      (if STC.basic_upper cs period mult (i + 1) < STC.upper_band cs period mult i ∨
          (STC.candleAt cs i).close > STC.upper_band cs period mult i then
        STC.basic_upper cs period mult (i + 1)
      else STC.upper_band cs period mult i) from rfl]
    rw [if_pos h]
  · intro h
    rw [show STC.upper_band cs period mult (i + 1) =
      (if STC.basic_upper cs period mult (i + 1) < STC.upper_band cs period mult i ∨
          (STC.candleAt cs i).close > STC.upper_band cs period mult i then
        STC.basic_upper cs period mult (i + 1)
      else STC.upper_band cs period mult i) from rfl]
    rw [if_neg h]
  · intro h
    rw [show STC.lower_band cs period mult (i + 1) =
      (if STC.basic_lower cs period mult (i + 1) > STC.lower_band cs period mult i ∨
          (STC.candleAt cs i).close < STC.lower_band cs period mult i then
        STC.basic_lower cs period mult (i + 1)
      else STC.lower_band cs period mult i) from rfl]
    rw [if_pos h]
  · intro h
    rw [show STC.lower_band cs period mult (i + 1) =
      (if STC.basic_lower cs period mult (i + 1) > STC.lower_band cs period mult i ∨
          (STC.candleAt cs i).close < STC.lower_band cs period mult i then
        STC.basic_lower cs period mult (i + 1)
      else STC.lower_band cs period mult i) from rfl]
    rw [if_neg h]

/-- Witness for C1: from FLAT with previous zone UNDER, observing OVER
with a failing open-long leaves the position FLAT and the previous zone
UNDER, and the returned success flag is false. -/
theorem process_signal_failure_frame_witness :
    (process_signal noInstClient 100 flatUnder ZoneObs.OVER 50000 true).success
      = false ∧
    (process_signal noInstClient 100 flatUnder ZoneObs.OVER 50000
      true).state.pos_state = PosState.FLAT ∧
    (process_signal noInstClient 100 flatUnder ZoneObs.OVER 50000
      true).state.prev_zone = Zone.UNDER := by
  have h : (process_signal noInstClient 100 flatUnder ZoneObs.OVER 50000
      true).success = false := by decide
  have h2 := process_signal_failure_frame noInstClient 100 flatUnder
    ZoneObs.OVER 50000 true h
  exact ⟨h, h2.1, h2.2.2.2.1⟩

/-- Witness for C3: a SHORT position with previous zone IN observing
OVER makes no order-manager call, and a concrete attempted reverse
SHORT-to-LONG call indeed arises from a SHORT position with previous
zone UNDER. -/
theorem no_reverse_from_cloud_exit_witness :
    shortIn.pos_state = PosState.SHORT ∧ shortIn.prev_zone = Zone.IN ∧
    (process_signal okClient 100 shortIn ZoneObs.OVER 50000 true).calls = [] ∧
    (OMCall.reversePosition "BTCUSDT" 2 PosState.SHORT PosState.LONG 50000
      ∈ (process_signal closeableClient 100 shortUnder ZoneObs.OVER 50000
        true).calls) ∧
    shortUnder.pos_state = PosState.SHORT ∧
    shortUnder.prev_zone = Zone.UNDER := by
  have hmem : OMCall.reversePosition "BTCUSDT" 2 PosState.SHORT PosState.LONG
      50000 ∈ (process_signal closeableClient 100 shortUnder ZoneObs.OVER
        50000 true).calls := by decide
  have hconj := no_reverse_from_cloud_exit.2.2.1 closeableClient 100
    shortUnder ZoneObs.OVER 50000 true "BTCUSDT" 2 50000 hmem
  have hcalls := no_reverse_from_cloud_exit.1 okClient 100 shortIn 50000
    true rfl rfl
  exact ⟨rfl, rfl, hcalls, hmem, hconj.1, hconj.2⟩

/-- Witness for C4: the FLAT invariant holds for a LONG position with
previous zone OVER and is preserved by a successful close (OVER to IN),
by a no-data reconciliation and by force close. -/
theorem flat_invariant_preserved_witness :
    position_invariant longOver ∧
    position_invariant
      (process_signal okClient 100 longOver ZoneObs.IN 50000 true).state ∧
    position_invariant (update_position_from_exchange (.ok []) longOver).2 ∧
    position_invariant (force_close_symbol okClient (.ok []) longOver) := by
  have h : position_invariant longOver := by decide
  exact ⟨h,
    flat_invariant_preserved.2.1 okClient 100 longOver ZoneObs.IN 50000 true h,
    flat_invariant_preserved.2.2.1 (.ok []) longOver h,
    flat_invariant_preserved.2.2.2 okClient (.ok []) longOver h⟩

/-- Witness for C5: on the documented instrument spec the source sizing
agrees with the specification-level sizing at notional 100 and price
60000, with every hypothesis checked concretely. -/
theorem order_sizing_correct_witness :
    okClient.instrument "BTCUSDT" = some btcSpec ∧ ((0 : ℚ) < 100) ∧
    ((0 : ℚ) < 60000) ∧ (0 < btcSpec.qtyStep) ∧
    ((btcSpec.qtyStep * (10 : ℚ) ^ decimalsOf btcSpec.qtyStep).den = 1) ∧
    calculate_order_qty okClient "BTCUSDT" 100 60000 =
      some (sizeOrder_spec btcSpec 100 60000) := by
  refine ⟨rfl, by norm_num, by norm_num, by norm_num [btcSpec], den_btcStep, ?_⟩
  exact order_sizing_correct.2.1 okClient "BTCUSDT" btcSpec 100 60000 rfl
    (by norm_num) (by norm_num) (by norm_num [btcSpec]) den_btcStep

/-- Witness for C6: with a client that accepts reduce-only orders and
rejects opens, a reverse whose close fails (qty 0) returns false, a
reverse whose close succeeds reports the open-step result, and a
non-positive close quantity fails fast with no order. -/
theorem reverse_close_first_witness :
    (close_position closeableClient "BTCUSDT" 0 PosState.SHORT).ok = false ∧
    (reverse_position closeableClient 100 "BTCUSDT" 0 PosState.SHORT
      PosState.LONG 50000).ok = false ∧
    (close_position closeableClient "BTCUSDT" 2 PosState.SHORT).ok = true ∧
    ((reverse_position closeableClient 100 "BTCUSDT" 2 PosState.SHORT
        PosState.LONG 50000).ok =
      (if PosState.LONG = PosState.LONG then
        open_long closeableClient 100 "BTCUSDT" 50000
       else open_short closeableClient 100 "BTCUSDT" 50000).ok) ∧
    ((0 : ℚ) ≤ 0 ∧
      close_position closeableClient "BTCUSDT" 0 PosState.SHORT = ⟨false, []⟩) := by
  have hfail : (close_position closeableClient "BTCUSDT" 0 PosState.SHORT).ok
      = false := by decide
  have hok : (close_position closeableClient "BTCUSDT" 2 PosState.SHORT).ok
      = true := by decide
  exact ⟨hfail,
    (reverse_close_first.1 closeableClient 100 "BTCUSDT" 0 PosState.SHORT
      PosState.LONG 50000 hfail).1,
    hok,
    reverse_close_first.2.1 closeableClient 100 "BTCUSDT" 2 PosState.SHORT
      PosState.LONG 50000 hok,
    by norm_num,
    reverse_close_first.2.2 closeableClient "BTCUSDT" 0 PosState.SHORT
      (by norm_num)⟩

/-- Witness for C7 (amended): concrete runs of all five reconciliation
branches on concrete states. -/
theorem reconciliation_behavior_witness :
    update_position_from_exchange (.error ()) longOver = (false, longOver) ∧
    (update_position_from_exchange (.ok [⟨3, "Buy", 7, 1⟩]) longOver).2.qty
      = 3 ∧
    (update_position_from_exchange (.ok [⟨0, "Sell", 0, 0⟩])
      longOver).2.pos_state = PosState.FLAT ∧
    (update_position_from_exchange (.ok []) longOver).2.pos_state
      = PosState.FLAT ∧
    update_position_from_exchange (.ok []) flatUnder = (true, flatUnder) := by
  have h2 := reconciliation_behavior.2.1 longOver ⟨3, "Buy", 7, 1⟩ []
    (by decide)
  have h3 := reconciliation_behavior.2.2.1 longOver ⟨0, "Sell", 0, 0⟩ []
    (by decide)
  have h4 := reconciliation_behavior.2.2.2.1 longOver (by decide)
  exact ⟨reconciliation_behavior.1 longOver, by rw [h2], by rw [h3],
    by rw [h4], reconciliation_behavior.2.2.2.2 flatUnder rfl⟩

/-- Witness for C8: on two identical candles with period 1 and
multiplier 1, the previous close lies below the upper band and the band
does not increase. -/
theorem band_ratchet_witness :
    (0 + 1 < wCandles.length) ∧
    ((STC.candleAt wCandles 0).close ≤ STC.upper_band wCandles 1 1 0) ∧
    STC.upper_band wCandles 1 1 (0 + 1) ≤ STC.upper_band wCandles 1 1 0 := by
  have hlen : 0 + 1 < wCandles.length := by decide
  have hclose : (STC.candleAt wCandles 0).close ≤
      STC.upper_band wCandles 1 1 0 := by
    show (1 : ℚ) ≤ STC.basic_upper wCandles 1 1 0
    norm_num [STC.basic_upper, STC.hl2, STC.atr, STC.trueRange, STC.candleAt,
      wCandles]
  exact ⟨hlen, hclose, (band_ratchet wCandles 1 1 0 hlen).1 hclose⟩

/-- Witness for C9 (amended): with upper cloud 5 and lower cloud 1, a
close of 6 classifies as OVER, matching close > upper. -/
theorem zone_classification_witness :
    ((1 : ℚ) ≤ 5) ∧
    (get_zone 6 5 1 = ZoneObs.OVER ↔ (6 : ℚ) > 5) := by
  exact ⟨by norm_num, (zone_classification.2 6 5 1 (by norm_num)).1⟩

/-- Witness for C10: a first run on a fresh candle (with the state
machine raising) records the candle time, and a second run with the
same latest candle time skips the state machine. -/
theorem candle_dedup_records_before_invoke_witness :
    (process_symbol none ⟨60, 100, false, true⟩).2 = true ∧
    (process_symbol none ⟨60, 100, false, true⟩).1 = some 100 ∧
    (process_symbol (process_symbol none ⟨60, 100, false, true⟩).1
      ⟨60, 100, false, false⟩).2 = false := by
  have h : (process_symbol none ⟨60, 100, false, true⟩).2 = true := by decide
  exact ⟨h, candle_dedup_records_before_invoke.1 none ⟨60, 100, false, true⟩ h,
    candle_dedup_records_before_invoke.2 none ⟨60, 100, false, true⟩
      ⟨60, 100, false, false⟩ h rfl⟩
